import Mathlib

/-!
Shallow embedding of `src/ogs-fetch.py` (a single-file crawler that mirrors a
user's game history from the online-go.com API into a local index file and
per-game SGF archive files), together with theorems settling the spec claims.

Python exceptions are modeled with `PyError`; fallible code returns
`Except PyError _`.  Machine-level concerns (time, sockets) are elided; the
responses the network would deliver are passed in explicitly.
-/

/-- The Python exceptions this program can raise, as a plain enumeration. -/
inductive PyError where
  | ioErr
  | jsonDecodeError
  | keyError (key : String)
  | typeError (msg : String)
  | runtimeError (msg : String)
  | nameError (name : String)
  | attributeError (name : String)
  | httpError (status : Nat)
  | keyboardInterrupt
deriving Repr, DecidableEq

/-- `sanitize_name` (src line 17-18): keep only characters that are
alphanumeric, a space, or an underscore. -/
def sanitize_name (s : String) : String :=
  ⟨s.data.filter (fun c => c.isAlphanum || c == ' ' || c == '_')⟩

/-- The `Player` dataclass (src lines 20-23). -/
structure Player where
  name : String
  rank : Int
deriving Repr, DecidableEq

/-- The `GameInfo` dataclass (src lines 39-44). -/
structure GameInfo where
  id : Int
  name : String
  white : Player
  black : Player
deriving Repr, DecidableEq

/-- The truthiness test `old_games and old_games[0].id == game.id`
guarding the `break` in build_index (src line 137): the loop stops only when
the fetched game's id equals the id of the FIRST record of the old index. -/
def stopHere (old : List GameInfo) (g : GameInfo) : Bool :=
  match old with
  | [] => false
  | h :: _ => h.id == g.id

/-- The `for idx, game in enumerate(games)` loop of build_index
(src lines 135-142): returns the collected `new_games` and the final value of
the loop variable `idx` (`none` when the loop body never executed, in which
case `idx` is left unbound in Python). -/
def buildLoop (old : List GameInfo) : List GameInfo → List GameInfo × Option Nat
  | [] => ([], none)
  | g :: rest =>
    if stopHere old g then
      ([], some 0)
    else
      match buildLoop old rest with
      | (_, none) => ([g], some 0)
      | (ng, some j) => (g :: ng, some (j + 1))

/-- `build_index` after the old index has been read (src lines 135-148):
runs the collection loop, prepends the new games, and writes the merged index
iff the final loop variable `idx` is nonzero.  Returns the merged index and
whether a write happened, or the `NameError` Python raises when the fetched
sequence is empty and `idx` was never bound. -/
def build_index (old fetched : List GameInfo) : Except PyError (List GameInfo × Bool) :=
  match buildLoop old fetched with
  | (_, none) => .error (.nameError "idx")
  | (ng, some idx) => .ok (ng ++ old, !(idx == 0))

/-- The inner loop of `take` (src lines 13-14): `for _ in range(count): yield
next(iterator)`.  Returns the yielded elements and, when `next` is called past
exhaustion, the `RuntimeError` that PEP 479 turns the `StopIteration` into. -/
def takeLoop {α : Type} : List α → Nat → List α × Option PyError
  | _, 0 => ([], none)
  | [], _ + 1 => ([], some (.runtimeError "generator raised StopIteration"))
  | x :: rest, n + 1 =>
    match takeLoop rest n with
    | (ys, e) => (x :: ys, e)

/-- `take` (src lines 9-14), modeled as the full list of values the generator
yields paired with the exception (if any) raised after the last yield.  When
`count` is `None` the code first yields the whole iterator (`yield from`) and
then, lacking a `return`, falls through to `range(None)`, which raises a
`TypeError`. -/
def take {α : Type} (xs : List α) (count : Option Nat) : List α × Option PyError :=
  match count with
  | none => (xs, some (.typeError "NoneType object cannot be interpreted as an integer"))
  | some n => takeLoop xs n

/-- A parsed JSON value.  Numbers are modeled as integers: the fields the
program reads numerically (`id`, `ranking`, `rating`) are compared and stored
without arithmetic, so the representation of the numeric payload is opaque to
every claim. -/
inductive Json where
  | null
  | bool (b : Bool)
  | num (n : Int)
  | str (s : String)
  | arr (xs : List Json)
  | obj (fields : List (String × Json))
deriving Repr

/-- Python `d[key]` on a parsed JSON value: a `KeyError` when the key is
absent from a dict, a `TypeError` when the value is not a dict. -/
def Json.get (j : Json) (key : String) : Except PyError Json :=
  match j with
  | .obj fields =>
    match fields.lookup key with
    | some v => .ok v
    | none => .error (.keyError key)
  | _ => .error (.typeError "value is not subscriptable by string")

/-- Read a JSON value as an integer.  The Python dataclasses would store any
value unchecked and fail later; no claim exercises that path, so a
non-numeric value is rejected at extraction. -/
def Json.asInt : Json → Except PyError Int
  | .num n => .ok n
  | _ => .error (.typeError "expected a number")

/-- Read a JSON value as a string (see `Json.asInt` for the convention). -/
def Json.asStr : Json → Except PyError String
  | .str s => .ok s
  | _ => .error (.typeError "expected a string")

/-- Read a JSON value as an array (see `Json.asInt` for the convention). -/
def Json.asArr : Json → Except PyError (List Json)
  | .arr xs => .ok xs
  | _ => .error (.typeError "expected an array")

/-- `Player.from_dict` (src lines 25-30): the persisted-index shape, direct
field mapping with no sanitization. -/
def Player.from_dict (d : Json) : Except PyError Player := do
  let name ← (← d.get "name").asStr
  let rank ← (← d.get "rank").asInt
  return { name := name, rank := rank }

/-- `Player.from_api_dict` (src lines 32-37): the API shape; the username is
sanitized and the rank is taken from the `ranking` field. -/
def Player.from_api_dict (d : Json) : Except PyError Player := do
  let username ← (← d.get "username").asStr
  let ranking ← (← d.get "ranking").asInt
  return { name := sanitize_name username, rank := ranking }

/-- `GameInfo.from_dict` (src lines 46-53): persisted-index shape. -/
def GameInfo.from_dict (d : Json) : Except PyError GameInfo := do
  let id ← (← d.get "id").asInt
  let name ← (← d.get "name").asStr
  let white ← Player.from_dict (← d.get "white")
  let black ← Player.from_dict (← d.get "black")
  return { id := id, name := sanitize_name name, white := white, black := black }

/-- `GameInfo.from_api_dict` (src lines 55-65): builds the record from the
API list-item shape (each player's rank initially the `ranking` field), then
overwrites both ranks with `historical_ratings.<color>.ratings.overall.rating`. -/
def GameInfo.from_api_dict (d : Json) : Except PyError GameInfo := do
  let id ← (← d.get "id").asInt
  let name ← (← d.get "name").asStr
  let players ← d.get "players"
  let white ← Player.from_api_dict (← players.get "white")
  let black ← Player.from_api_dict (← players.get "black")
  let hr ← d.get "historical_ratings"
  let wRating ← (← (← (← (← hr.get "white").get "ratings").get "overall").get "rating").asInt
  let bRating ← (← (← (← (← hr.get "black").get "ratings").get "overall").get "rating").asInt
  return { id := id, name := sanitize_name name,
           white := { white with rank := wRating },
           black := { black with rank := bRating } }

/-- What opening and reading the per-user index file can come to: an
`IOError` (file absent or unreadable), text that `json.loads` rejects, or a
parsed JSON value. -/
inductive IndexFile where
  | ioFailure
  | malformed
  | json (j : Json)

/-- `read_index` (src lines 107-117) given the outcome of reading the file.
Only `IOError` is caught (yielding the empty index); `json.loads` failures
(`JSONDecodeError`, a `ValueError`) and missing record fields (`KeyError`)
propagate to the caller.  A parsed value that is not a JSON array is
approximated as the `TypeError` Python's iteration over it would reach. -/
def read_index (file : IndexFile) : Except PyError (List GameInfo) :=
  match file with
  | .ioFailure => .ok []
  | .malformed => .error .jsonDecodeError
  | .json (.arr items) => items.mapM GameInfo.from_dict
  | .json _ => .error (.typeError "index JSON is not a list of records")

/-- An HTTP response already past the 429 backoff-retry loop of
`throttled_get`: a status code and the parsed JSON body. -/
structure Response where
  status : Nat
  body : Json
deriving Repr

/-- `requests.Response.raise_for_status`: raises an `HTTPError` carrying the
status code exactly when the status is 4xx or 5xx. -/
def raise_for_status (r : Response) : Except PyError Unit :=
  if 400 ≤ r.status ∧ r.status < 600 then .error (.httpError r.status) else .ok ()

/-- The pagination loop of `list_user_games` (src lines 99-105) on the
current page body and the responses the server will give for the successive
`next` links.  Each follow-up response is fed straight to `.json()` with NO
`raise_for_status` (src line 105).  Running out of modeled responses while a
`next` link remains is not a code path and maps to a `RuntimeError`. -/
def paginate (page : Response) (rest : List Response) : Except PyError (List GameInfo) :=
  match rest with
  | [] => do
    let results ← (← page.body.get "results").asArr
    let gs ← results.mapM GameInfo.from_api_dict
    match ← page.body.get "next" with
    | .null => return gs
    | _ => .error (.runtimeError "next link with no modeled response")
  | r :: rs => do
    let results ← (← page.body.get "results").asArr
    let gs ← results.mapM GameInfo.from_api_dict
    match ← page.body.get "next" with
    | .null => return gs
    | _ => return gs ++ (← paginate r rs)

/-- `list_user_games` (src lines 88-105): `raise_for_status` is called on the
response to the initial request only (src line 97), after which the
pagination loop runs.  `first` is the initial response and `rest` the
responses for the successive `next` links. -/
def list_user_games (first : Response) (rest : List Response) :
    Except PyError (List GameInfo) := do
  let _ ← raise_for_status first
  paginate first rest

/-- The deterministic archive path computed by `load_game`
(src lines 161-162): `./games/{user_id}/{id} {name} [{black} vs {white}].sgf`,
from already-sanitized fields. -/
def gamePath (user_id : Int) (g : GameInfo) : String :=
  "./games/" ++ toString user_id ++ "/" ++ toString g.id ++ " " ++ g.name ++
    " [" ++ g.black.name ++ " vs " ++ g.white.name ++ "].sgf"

/-- The filesystem as an association list from paths to file contents. -/
def FS : Type := List (String × String)

/-- An SGF fetch response: status code and raw text body. -/
structure SgfResponse where
  status : Nat
  text : String
deriving Repr, DecidableEq

/-- `load_game` (src lines 159-177) without an interrupt: if a file already
exists at the archive path, return immediately; otherwise fetch the SGF
(`resp` is what the server would answer), `raise_for_status`, and write the
body to the path.  Returns the new filesystem and the number of network
requests performed. -/
def load_game (fs : FS) (user_id : Int) (g : GameInfo) (resp : SgfResponse) :
    Except PyError (FS × Nat) :=
  let path := gamePath user_id g
  match List.lookup path fs with
  | some _ => .ok (fs, 0)
  | none =>
    if 400 ≤ resp.status ∧ resp.status < 600 then
      .error (.httpError resp.status)
    else
      .ok ((path, resp.text) :: fs, 1)

/-- The pathlib.Path methods this program calls that the class actually
provides; the stdlib method that removes a file is `unlink`, and `delete` is
not provided, so `Path(path).delete()` raises an `AttributeError`. -/
def pathHasMethod : String → Bool
  | "exists" => true
  | "mkdir" => true
  | "unlink" => true
  | _ => false

/-- The `except KeyboardInterrupt` handler of `load_game` (src lines 173-175),
entered with the partially written file already at `path`: it attempts
`Path(path).delete()` and then `raise`.  Returns the filesystem after the
handler and the exception that actually propagates out of it. -/
def load_game_interrupt_handler (fs : FS) (path : String) : FS × PyError :=
  if pathHasMethod "delete" then
    (List.filter (fun kv => !(kv.1 == path)) fs, .keyboardInterrupt)
  else
    (fs, .attributeError "delete")

/-- A concrete game record (id 600) used to instantiate theorems. -/
def gA : GameInfo :=
  { id := 600, name := "ab", white := { name := "w", rank := 3 },
    black := { name := "b", rank := 4 } }

/-- A concrete game record (id 500) used to instantiate theorems. -/
def gB : GameInfo :=
  { id := 500, name := "cd", white := { name := "w2", rank := 5 },
    black := { name := "b2", rank := 6 } }

/-- A concrete game record (id 400) used to instantiate theorems. -/
def gC : GameInfo :=
  { id := 400, name := "ef", white := { name := "w3", rank := 7 },
    black := { name := "b3", rank := 8 } }

/-- A freshly fetched record carrying the same id as `gB`. -/
def gBdup : GameInfo :=
  { id := 500, name := "cd", white := { name := "w2", rank := 5 },
    black := { name := "b2", rank := 6 } }

/-- A concrete persisted-index record in JSON form; `GameInfo.from_dict`
parses it to `gA` (the raw name "a-b" sanitizes to "ab"). -/
def gAJson : Json := .obj
  [("id", .num 600), ("name", .str "a-b"),
   ("white", .obj [("name", .str "w"), ("rank", .num 3)]),
   ("black", .obj [("name", .str "b"), ("rank", .num 4)])]

/-- The value at `historical_ratings.<color>.ratings.overall.rating` of an
API list-item dict, read as an integer. -/
def apiHistRating (d : Json) (color : String) : Except PyError Int := do
  (← (← (← (← (← d.get "historical_ratings").get color).get "ratings").get
      "overall").get "rating").asInt

/-- The value at `players.<color>.username` of an API list-item dict. -/
def apiUsername (d : Json) (color : String) : Except PyError String := do
  (← (← (← d.get "players").get color).get "username").asStr

/-- The `name` field of an API list-item dict. -/
def apiGameName (d : Json) : Except PyError String := do
  (← d.get "name").asStr

/-- A concrete API list-item dict used to instantiate theorems. -/
def sampleApi : Json := .obj
  [("id", .num 7), ("name", .str "n!x"),
   ("players", .obj
     [("white", .obj [("username", .str "wu-"), ("ranking", .num 10)]),
      ("black", .obj [("username", .str "bu"), ("ranking", .num 11)])]),
   ("historical_ratings", .obj
     [("white", .obj [("ratings", .obj [("overall", .obj [("rating", .num 1500)])])]),
      ("black", .obj [("ratings", .obj [("overall", .obj [("rating", .num 1600)])])])])]

/-- The record `GameInfo.from_api_dict` builds from `sampleApi`: both ranks
are the historical ratings, not the `ranking` fields (10 and 11). -/
def sampleApiGame : GameInfo :=
  { id := 7, name := "nx", white := { name := "wu", rank := 1500 },
    black := { name := "bu", rank := 1600 } }

/-- The first page of a games listing: HTTP 200, empty results, with a
server-supplied next link. -/
def okPage : Response := ⟨200, .obj [("results", .arr []), ("next", .str "page2")]⟩

/-- A failing follow-up page: HTTP 500 whose JSON body still parses. -/
def errPage : Response := ⟨500, .obj [("results", .arr []), ("next", .null)]⟩

/-- Destructing a successful `Except` bind. -/
theorem except_bind_ok {ε α β : Type} {x : Except ε α} {f : α → Except ε β} {b : β}
    (h : x >>= f = .ok b) : ∃ a, x = .ok a ∧ f a = .ok b := by
  cases x with
  | error e => simp [Bind.bind, Except.bind] at h
  | ok a => exact ⟨a, rfl, h⟩

/-- The `break` case of the build_index loop: when the old index has head
`h`, the fetched sequence is `pre ++ g :: suf`, `g` carries the head's id and
nothing in `pre` does, the loop collects exactly `pre` and stops with the
loop variable at `pre.length`. -/
theorem buildLoop_break (h : GameInfo) (rest : List GameInfo) (pre suf : List GameInfo)
    (g : GameInfo) (hg : g.id = h.id) (hp : ∀ p ∈ pre, p.id ≠ h.id) :
    buildLoop (h :: rest) (pre ++ g :: suf) = (pre, some pre.length) := by
  induction pre with
  | nil => simp [buildLoop, stopHere, hg]
  | cons p ps ih =>
    have hne : (h.id == p.id) = false := by
      have : p.id ≠ h.id := hp p (List.mem_cons_self _ _)
      simp [beq_eq_false_iff_ne]
      exact fun e => this e.symm
    have ih2 := ih (fun q hq => hp q (List.mem_cons_of_mem _ hq))
    simp [buildLoop, stopHere, hne, ih2]

/-- Claim C9 (confirmed).  Sanitization: for every input string, the output
of `sanitize_name` contains only alphanumeric characters, spaces, and
underscores, and its character list is a sublist of the input's (each kept
character appears in the input in the same relative order; nothing is added
or transformed). -/
theorem sanitize_name_spec (s : String) :
    (∀ c ∈ (sanitize_name s).data, (c.isAlphanum || c == ' ' || c == '_') = true) ∧
    List.Sublist (sanitize_name s).data s.data := by
  have hd : (sanitize_name s).data =
      s.data.filter (fun c => c.isAlphanum || c == ' ' || c == '_') := rfl
  constructor
  · intro c hc
    rw [hd] at hc
    exact (List.mem_filter.mp hc).2
  · rw [hd]
    exact List.filter_sublist s.data

/-- Claim C10 (confirmed).  If the fetched game sequence is empty, the
`for idx, game in enumerate(games)` loop body never executes, so the
subsequent `if idx != 0` reads an unbound variable and build_index raises a
`NameError` instead of returning the unchanged index. -/
theorem build_index_empty_fetch_name_error (old : List GameInfo) :
    build_index old [] = .error (.nameError "idx") := rfl

/-- Claim C2 (code_bug).  At the failing input — empty prior index, fetch
yielding exactly one game — the loop consumes the single game with the loop
variable `idx` stuck at 0, so `idx != 0` is false and the merged one-record
index is NOT written, although one new game was collected (the flag in the
result is `false`). -/
theorem build_index_one_new_game_skips_write :
    build_index [] [gA] = .ok ([gA], false) := rfl

/-- Claim C1 (counterexample).  Take prior index `I = [gB, gC]` and fetched
sequence `P = [gC]`: `P` immediately reaches id 400, which is present in `I`
(but not at its head).  The code does not stop there: it collects `gC` and
merges to `[gC, gB, gC]`, which differs from the claimed
`(P before id 400) ++ I = I` and has a duplicated id. -/
theorem build_index_nonhead_id_counterexample :
    gC.id ∈ List.map GameInfo.id [gB, gC] ∧
    build_index [gB, gC] [gC] = .ok ([gC, gB, gC], false) ∧
    ¬ (List.map GameInfo.id [gC, gB, gC]).Nodup ∧
    ([gC, gB, gC] : List GameInfo) ≠ [gB, gC] := by
  refine ⟨by decide, rfl, by decide, by decide⟩

/-- Claim C1 (corrected).  Amended merge monotonicity: the stopping id is
the id of the prior index's FIRST element.  If the prior index has head `h`
and the fetched sequence reaches a game `g` with `g.id = h.id`, no earlier
fetched game carrying that id, then build_index stops there and the merged
index is exactly the fetched prefix before `g` prepended to the prior index
(newest-first order kept by construction), the write occurring iff that
prefix is nonempty; and when the prefix's ids are distinct and disjoint from
the prior index's distinct ids, the merged index's ids are unique. -/
theorem build_index_head_merge (h : GameInfo) (rest pre suf : List GameInfo)
    (g : GameInfo) (hg : g.id = h.id) (hp : ∀ p ∈ pre, p.id ≠ h.id) :
    build_index (h :: rest) (pre ++ g :: suf) =
      .ok (pre ++ h :: rest, !(pre.length == 0)) ∧
    ((List.map GameInfo.id pre).Nodup →
      (List.map GameInfo.id (h :: rest)).Nodup →
      (∀ p ∈ pre, p.id ∉ List.map GameInfo.id (h :: rest)) →
      (List.map GameInfo.id (pre ++ h :: rest)).Nodup) := by
  constructor
  · unfold build_index
    rw [buildLoop_break h rest pre suf g hg hp]
  · intro h1 h2 h3
    rw [List.map_append, List.nodup_append]
    refine ⟨h1, h2, ?_⟩
    intro a ha hb
    obtain ⟨p, hpmem, rfl⟩ := List.mem_map.mp ha
    exact h3 p hpmem hb

/-- Claim C3 (counterexample).  A per-user index file that exists and holds
the well-formed JSON array `[{}]` — one record missing every expected field —
makes `read_index` raise a `KeyError` to its caller instead of returning a
sequence. -/
theorem read_index_missing_field_raises :
    read_index (.json (.arr [.obj []])) = .error (.keyError "id") := rfl

/-- Claim C3 (corrected).  Amended totality: `read_index` returns the parsed
record sequence when the file exists and every record parses, and returns the
empty sequence when the file is absent or unreadable (`IOError`); but a file
that exists with malformed JSON, or with records missing expected fields,
raises to the caller (only `IOError` is caught). -/
theorem read_index_amended :
    (∀ items, read_index (.json (.arr items)) = items.mapM GameInfo.from_dict) ∧
    read_index (.json (.arr [gAJson])) = .ok [gA] ∧
    read_index .ioFailure = .ok [] ∧
    read_index .malformed = .error .jsonDecodeError :=
  ⟨fun _ => rfl, rfl, rfl, rfl⟩

/-- Claim C8 (confirmed).  For every API list-item dict that
`GameInfo.from_api_dict` accepts, each color's rank in the produced record
equals the value at `historical_ratings.<color>.ratings.overall.rating` (the
initial assignment from `ranking` is overwritten), and the player names and
game name are the sanitized username / game name. -/
theorem from_api_rank_override (d : Json) (g : GameInfo)
    (h : GameInfo.from_api_dict d = .ok g) :
    apiHistRating d "white" = .ok g.white.rank ∧
    apiHistRating d "black" = .ok g.black.rank ∧
    (∃ u, apiUsername d "white" = .ok u ∧ g.white.name = sanitize_name u) ∧
    (∃ u, apiUsername d "black" = .ok u ∧ g.black.name = sanitize_name u) ∧
    (∃ n, apiGameName d = .ok n ∧ g.name = sanitize_name n) := by
  unfold GameInfo.from_api_dict at h
  obtain ⟨jid, hjid, h⟩ := except_bind_ok h
  obtain ⟨idv, hid, h⟩ := except_bind_ok h
  obtain ⟨jname, hjname, h⟩ := except_bind_ok h
  obtain ⟨nm, hnm, h⟩ := except_bind_ok h
  obtain ⟨players, hplayers, h⟩ := except_bind_ok h
  obtain ⟨jw, hjw, h⟩ := except_bind_ok h
  obtain ⟨w, hw, h⟩ := except_bind_ok h
  obtain ⟨jb, hjb, h⟩ := except_bind_ok h
  obtain ⟨b, hb, h⟩ := except_bind_ok h
  obtain ⟨hr, hhr, h⟩ := except_bind_ok h
  obtain ⟨w1, hw1, h⟩ := except_bind_ok h
  obtain ⟨w2, hw2, h⟩ := except_bind_ok h
  obtain ⟨w3, hw3, h⟩ := except_bind_ok h
  obtain ⟨w4, hw4, h⟩ := except_bind_ok h
  obtain ⟨wr, hwr, h⟩ := except_bind_ok h
  obtain ⟨b1, hb1, h⟩ := except_bind_ok h
  obtain ⟨b2, hb2, h⟩ := except_bind_ok h
  obtain ⟨b3, hb3, h⟩ := except_bind_ok h
  obtain ⟨b4, hb4, h⟩ := except_bind_ok h
  obtain ⟨br, hbr, h⟩ := except_bind_ok h
  unfold Player.from_api_dict at hw hb
  obtain ⟨jwu, hjwu, hw⟩ := except_bind_ok hw
  obtain ⟨wu, hwu, hw⟩ := except_bind_ok hw
  obtain ⟨jwrk, hjwrk, hw⟩ := except_bind_ok hw
  obtain ⟨wrk, hwrk, hw⟩ := except_bind_ok hw
  obtain ⟨jbu, hjbu, hb⟩ := except_bind_ok hb
  obtain ⟨bu, hbu, hb⟩ := except_bind_ok hb
  obtain ⟨jbrk, hjbrk, hb⟩ := except_bind_ok hb
  obtain ⟨brk, hbrk, hb⟩ := except_bind_ok hb
  simp only [pure, Except.pure, Except.ok.injEq] at h hw hb
  subst h
  subst hw
  subst hb
  refine ⟨?_, ?_, ⟨wu, ?_, rfl⟩, ⟨bu, ?_, rfl⟩, ⟨nm, ?_, rfl⟩⟩
  · simp [apiHistRating, Bind.bind, Except.bind, hhr, hw1, hw2, hw3, hw4, hwr]
  · simp [apiHistRating, Bind.bind, Except.bind, hhr, hb1, hb2, hb3, hb4, hbr]
  · simp [apiUsername, Bind.bind, Except.bind, hplayers, hjw, hjwu, hwu]
  · simp [apiUsername, Bind.bind, Except.bind, hplayers, hjb, hjbu, hbu]
  · simp [apiGameName, Bind.bind, Except.bind, hjname, hnm]

/-- Witness for `from_api_rank_override` at the concrete dict `sampleApi`. -/
theorem from_api_rank_override_witness :
    apiHistRating sampleApi "white" = .ok sampleApiGame.white.rank ∧
    apiHistRating sampleApi "black" = .ok sampleApiGame.black.rank ∧
    (∃ u, apiUsername sampleApi "white" = .ok u ∧
      sampleApiGame.white.name = sanitize_name u) ∧
    (∃ u, apiUsername sampleApi "black" = .ok u ∧
      sampleApiGame.black.name = sanitize_name u) ∧
    (∃ n, apiGameName sampleApi = .ok n ∧ sampleApiGame.name = sanitize_name n) :=
  from_api_rank_override sampleApi sampleApiGame rfl

/-- Witness for `build_index_head_merge` at a concrete input: prior index
`[gB, gC]`, fetched sequence `[gA, gBdup]` with `gBdup.id = gB.id`. -/
theorem build_index_head_merge_witness :
    (build_index [gB, gC] ([gA] ++ gBdup :: []) =
      .ok ([gA] ++ gB :: [gC], !(([gA] : List GameInfo).length == 0))) ∧
    ((List.map GameInfo.id [gA]).Nodup →
      (List.map GameInfo.id (gB :: [gC])).Nodup →
      (∀ p ∈ [gA], p.id ∉ List.map GameInfo.id (gB :: [gC])) →
      (List.map GameInfo.id ([gA] ++ gB :: [gC])).Nodup) :=
  build_index_head_merge gB [gC] [gA] [] gBdup (by decide) (by decide)

/-- Claim C4 (confirmed).  Idempotent archiving: if a file already sits at
the deterministic archive path, `load_game` returns at once with no network
request; and after any successful `load_game`, a second call for the same
game leaves the filesystem unchanged and performs zero network requests, the
one file at the path holding the body the first call fetched. -/
theorem load_game_idempotent (fs : FS) (u : Int) (g : GameInfo)
    (r1 r2 : SgfResponse) (fs1 : FS) (n : Nat)
    (h : load_game fs u g r1 = .ok (fs1, n)) :
    load_game fs1 u g r2 = .ok (fs1, 0) ∧
    (List.lookup (gamePath u g) fs = none →
      List.lookup (gamePath u g) fs1 = some r1.text) ∧
    (∀ fs0 : FS, (∃ c, List.lookup (gamePath u g) fs0 = some c) →
      load_game fs0 u g r2 = .ok (fs0, 0)) := by
  have hpresent : ∀ fs0 : FS, (∃ c, List.lookup (gamePath u g) fs0 = some c) →
      load_game fs0 u g r2 = .ok (fs0, 0) := by
    intro fs0 ⟨c, hc⟩
    simp only [load_game]
    rw [hc]
  simp only [load_game] at h
  cases hl : List.lookup (gamePath u g) fs with
  | some c =>
    rw [hl] at h
    simp only [Except.ok.injEq, Prod.mk.injEq] at h
    obtain ⟨rfl, rfl⟩ := h
    refine ⟨hpresent fs ⟨c, hl⟩, ?_, hpresent⟩
    intro hnone
    simp at hnone
  | none =>
    rw [hl] at h
    by_cases hs : 400 ≤ r1.status ∧ r1.status < 600
    · rw [if_pos hs] at h
      cases h
    · rw [if_neg hs] at h
      simp only [Except.ok.injEq, Prod.mk.injEq] at h
      obtain ⟨rfl, rfl⟩ := h
      have hfound : List.lookup (gamePath u g) ((gamePath u g, r1.text) :: fs) =
          some r1.text := by simp [List.lookup]
      exact ⟨hpresent _ ⟨r1.text, hfound⟩, fun _ => hfound, hpresent⟩

/-- Witness for `load_game_idempotent`: an empty filesystem, game `gA` for
user 1, and a 200 response with body "sgf". -/
theorem load_game_idempotent_witness :
    load_game [(gamePath 1 gA, "sgf")] 1 gA ⟨200, "other"⟩ =
      .ok ([(gamePath 1 gA, "sgf")], 0) ∧
    (List.lookup (gamePath 1 gA) ([] : FS) = none →
      List.lookup (gamePath 1 gA) [(gamePath 1 gA, "sgf")] =
        some (SgfResponse.text ⟨200, "sgf"⟩)) ∧
    (∀ fs0 : FS, (∃ c, List.lookup (gamePath 1 gA) fs0 = some c) →
      load_game fs0 1 gA ⟨200, "other"⟩ = .ok (fs0, 0)) :=
  load_game_idempotent [] 1 gA ⟨200, "sgf"⟩ ⟨200, "other"⟩
    [(gamePath 1 gA, "sgf")] 1 rfl

/-- Claim C5 (code_bug).  At the failing input — a cancellation signal
(KeyboardInterrupt) arriving during the archive write — the cleanup handler
attempts `Path(path).delete()`, a method pathlib does not provide, so an
`AttributeError` propagates instead of the KeyboardInterrupt and the
partially written file is left in place, for every filesystem and path. -/
theorem interrupt_handler_leaves_partial_file (fs : FS) (path : String) :
    load_game_interrupt_handler fs path = (fs, .attributeError "delete") := rfl

/-- Claim C6 (code_bug).  Evaluating `take` at the failing inputs: with
`count = None` it yields the whole list but then falls through to
`range(None)` and raises a `TypeError`; with `count` exceeding the list
length it yields the whole list and then raises (`StopIteration` surfaced as
`RuntimeError`); only for `count` at most the length does it yield exactly
`count` games and stop cleanly — so `load_all_games`, which drives
`load_game` off `take(games, limit)`, raises after loading the games
whenever `limit` is `None` or exceeds the index length. -/
theorem take_falls_through_and_overruns :
    take [gA] none =
      ([gA], some (.typeError "NoneType object cannot be interpreted as an integer")) ∧
    take [gA] (some 2) =
      ([gA], some (.runtimeError "generator raised StopIteration")) ∧
    take [gA, gB, gC] (some 2) = ([gA, gB], none) :=
  ⟨rfl, rfl, rfl⟩

/-- Claim C7 (counterexample).  A pagination request answered with HTTP 500
(non-2xx, non-429) does NOT make an HttpError propagate: the response is fed
straight to `.json()`, and here `list_user_games` completes normally —
although `raise_for_status`, had it been applied to that response, would
have raised `HttpError 500`. -/
theorem next_page_error_not_raised :
    list_user_games okPage [errPage] = .ok [] ∧
    raise_for_status errPage = .error (.httpError 500) := by
  constructor
  · rfl
  · rfl

/-- Claim C7 (corrected).  Amended propagation: `raise_for_status` guards
only the FIRST games-list request and the SGF fetches; there a 4xx/5xx
response makes an `HttpError` carrying the status code propagate to the
caller with no retry.  Follow-up pagination responses are never
status-checked (they are passed directly to `.json()`). -/
theorem http_error_first_page_and_sgf (first : Response) (rest : List Response)
    (h4 : 400 ≤ first.status) (h6 : first.status < 600)
    (fs : FS) (u : Int) (g : GameInfo) (r : SgfResponse)
    (habs : List.lookup (gamePath u g) fs = none)
    (hr4 : 400 ≤ r.status) (hr6 : r.status < 600) :
    list_user_games first rest = .error (.httpError first.status) ∧
    load_game fs u g r = .error (.httpError r.status) := by
  constructor
  · unfold list_user_games raise_for_status
    rw [if_pos ⟨h4, h6⟩]
    rfl
  · simp only [load_game]
    rw [habs, if_pos ⟨hr4, hr6⟩]

/-- Witness for `http_error_first_page_and_sgf`: a 404 first page and a 500
SGF response against an empty filesystem. -/
theorem http_error_first_page_and_sgf_witness :
    list_user_games ⟨404, .null⟩ [] = .error (.httpError 404) ∧
    load_game [] 1 gA ⟨500, "x"⟩ = .error (.httpError 500) :=
  http_error_first_page_and_sgf ⟨404, .null⟩ [] (by decide) (by decide)
    [] 1 gA ⟨500, "x"⟩ rfl (by decide) (by decide)
